import Mathlib

/-!
Shallow embedding of the dj-photon-codecs repository
(src/dj_photon_codecs/codecs.py, class PhotonCodec) and proofs about it.

The codec core under src/ is translated directly: validate, encode, decode,
the chunking policy, the attribute writes and the version gate.  External
collaborators that the spec places out of scope (the datajoint base class
helpers, the zarr engine, the anscombe transform library) are modelled from
the spec at their interface boundaries; each such definition carries a doc
comment starting with the words Modelled from the spec.

Python values are modelled as follows: array elements are integers plus a
distinguished NaN (IEEE comparisons against NaN are false); numpy arrays
carry a dtype tag, a shape and flattened data; exceptions are a message
string plus an optional cause (DataJointError raised from e); the object
store is an association list from (backend, path) to stored artifacts.
-/

deriving instance DecidableEq for Except

/-- An array element: a finite numeric value or IEEE NaN. Finite values
are modelled as integers (every float literal the codec manipulates is
integral). NaN compares false under every ordering comparison, in
particular NaN < 0 is false, which is what numpy computes elementwise
for value < 0. -/
inductive Val where
  | nan : Val
  | num (n : Int) : Val
deriving DecidableEq

/-- The elementwise comparison v < 0 as numpy evaluates it: false for NaN. -/
def Val.ltZero : Val → Bool
  | .nan => false
  | .num n => decide (n < 0)

/-- A numpy dtype tag: the opaque object dtype, float64, or any other
concrete dtype identified by its name string. -/
inductive DType where
  | object : DType
  | float64 : DType
  | named (s : String) : DType
deriving DecidableEq

/-- str(dtype) as used for the original_dtype attribute. -/
def DType.toStr : DType → String
  | .object => "object"
  | .float64 => "float64"
  | .named s => s

/-- A numpy ndarray: dtype, shape, and row-major flattened data. -/
structure NDArray where
  dtype : DType
  shape : List Nat
  data : List Val
deriving DecidableEq

/-- value.ndim is the length of the shape tuple. -/
def NDArray.ndim (a : NDArray) : Nat := a.shape.length

/-- A Python value passed to validate or encode: either a numpy array or
some other object, identified by its type name (type(value).__name__). -/
inductive PyValue where
  | arr (a : NDArray) : PyValue
  | other (typeName : String) : PyValue
deriving DecidableEq

/-- A raised Python exception: its message and, when raised from e, the
original exception preserved as the cause. -/
inductive PyErr where
  | base (msg : String) : PyErr
  | wrapped (msg : String) (cause : PyErr) : PyErr
deriving DecidableEq

/-- The message of an exception. -/
def PyErr.msg : PyErr → String
  | .base m => m
  | .wrapped m _ => m

/-- The cause of an exception (the from e chain), when present. -/
def PyErr.cause : PyErr → Option PyErr
  | .base _ => none
  | .wrapped _ c => some c

/-- Message of the wrong-type validation failure (codecs.py line 118). -/
def typeErrMsg (t : String) : String :=
  "<photon> requires numpy.ndarray, got " ++ t

/-- Message of the object-dtype validation failure (codecs.py line 122). -/
def objectDtypeMsg : String :=
  "<photon> does not support object dtype arrays"

/-- Message of the dimensionality validation failure (codecs.py line 124). -/
def ndimMsg (n : Nat) : String :=
  "<photon> requires 3D+ arrays (time, height, width, ...), got " ++ (toString n ++ "D")

/-- Message of the negative-values validation failure (codecs.py line 128). -/
def negMsg : String :=
  "<photon> requires non-negative values (photon counts cannot be negative)"

/-- PhotonCodec.validate (codecs.py lines 102-130): checks, in order, that
value is a numpy array, that its dtype is not object, that it has at least
3 dimensions, and that no element compares less than zero; raises a
DataJointError naming the violated precondition, otherwise returns None. -/
def validate (value : PyValue) : Except PyErr Unit :=
  match value with
  | .other t => .error (.base (typeErrMsg t))
  | .arr a =>
    if a.dtype = .object then
      .error (.base objectDtypeMsg)
    else if a.ndim < 3 then
      .error (.base (ndimMsg a.ndim))
    else if a.data.any Val.ltZero then
      .error (.base negMsg)
    else
      .ok ()

/-- Modelled from the spec (section 6): the host supplies identity context
(schema name, table name, field name, primary-key mapping) per call. -/
structure IdentityContext where
  schema : String
  table : String
  field : String
  primary_key : List (String × String)
deriving DecidableEq

/-- Modelled from the spec (sections 4.2 and 7): SchemaCodec extracts the
identity context from the caller-supplied key; extraction is a hard failure
(AddressingError, before any I/O) when the context is absent. -/
def extractContext (key : Option IdentityContext) : Except PyErr IdentityContext :=
  match key with
  | some c => .ok c
  | none => .error (.base "missing identity context for <photon> codec")

/-- Modelled from the spec (sections 4.2 and 6): the schema-addressed path
is the deterministic hierarchy schema/table/primary-key/field with the
extension appended; the store name does not enter the path. Returns the
path together with an access token, which the codec discards. -/
def buildPath (schema table field : String) (pk : List (String × String))
    (ext : String) (storeName : Option String) : String × String :=
  (schema ++ "/" ++ table ++ "/"
      ++ String.intercalate "_" (pk.map (fun kv => kv.2))
      ++ "/" ++ field ++ ext,
   "token")

/-- A zarr attribute value: a JSON string or number (integers stand for
the float literals 1.0 and 0.0 the codec writes, which are integral). -/
inductive AttrVal where
  | s (v : String) : AttrVal
  | f (v : Int) : AttrVal
deriving DecidableEq

/-- attrs.get(k) on a zarr attribute mapping, first binding wins. -/
def attrsGet (attrs : List (String × AttrVal)) (k : String) : Option AttrVal :=
  (attrs.find? (fun e => e.1 == k)).map (fun e => e.2)

/-- A persisted zarr array: the transformed payload, the declared chunk
shape, and the attribute mapping. -/
structure ZarrArtifact where
  payload : NDArray
  chunks : List Nat
  attrs : List (String × AttrVal)
deriving DecidableEq

/-- The object-store world: the set of known named stores and the persisted
artifacts, keyed by (resolved backend, path). The default backend (store
name None) is the key none. -/
structure Env where
  knownStores : List String
  objects : List ((Option String) × String × ZarrArtifact)
deriving DecidableEq

/-- Modelled from the spec (section 4.3): store name None resolves to the
default backend; a named store resolves iff it is known, otherwise a
distinct resolution error is raised. -/
def getBackend (env : Env) (storeName : Option String) : Except PyErr (Option String) :=
  match storeName with
  | none => .ok none
  | some n =>
    if n ∈ env.knownStores then .ok (some n)
    else .error (.base ("unknown object store: " ++ n))

/-- Look up the artifact persisted at (backend, path), if any. -/
def Env.lookupObj (env : Env) (bk : Option String) (path : String) : Option ZarrArtifact :=
  (env.objects.find? (fun e => e.1 == bk && e.2.1 == path)).map (fun e => e.2.2)

/-- Persist an artifact at (backend, path), replacing any previous artifact
at the same address (re-encode overwrites, it does not duplicate). -/
def Env.putObj (env : Env) (bk : Option String) (path : String) (z : ZarrArtifact) : Env :=
  { env with
    objects := (bk, path, z)
      :: env.objects.filter (fun e => !(e.1 == bk && e.2.1 == path)) }

/-- Modelled from the spec (section 6): zarr.open in read mode returns a
lazy handle on the artifact at the mapped address and fails when nothing
readable is stored there. -/
def zarrOpenRead (env : Env) (bk : Option String) (path : String) : Except PyErr ZarrArtifact :=
  match env.lookupObj bk path with
  | some z => .ok z
  | none => .error (.base ("zarr: no array found at " ++ path))

/-- Modelled from the spec (sections 1 and 4.4): the elementwise numeric
formula of the generalized Anscombe transform is out of scope; it is
modelled as a pure elementwise function of the value and the parameters
(a rational surrogate of the variance-stabilizing curve), NaN-preserving. -/
def anscombeElem (gain offset variance : Int) : Val → Val
  | .nan => .nan
  | .num q => .num (2 * (8 * gain * q + 3 * gain * gain + 8 * variance - 8 * gain * offset))

/-- Modelled from the spec (section 4.4): generalized_anscombe from the
anscombe library is a pure, deterministic, elementwise, shape-preserving
transform whose output dtype is float64 regardless of the input dtype. -/
def generalized_anscombe (value : NDArray) (gain offset variance : Int) : NDArray :=
  { dtype := .float64
    shape := value.shape
    data := value.data.map (anscombeElem gain offset variance) }

/-- The chunking policy of encode (codecs.py lines 186-187): at most 100
frames per chunk along axis 0, full extent along every remaining axis.
The empty-shape case is unreachable in encode, because validate admits
only arrays with at least 3 dimensions. -/
def computeChunks (shape : List Nat) : List Nat :=
  match shape with
  | [] => []
  | s0 :: rest => min 100 s0 :: rest

/-- PhotonCodec.CODEC_VERSION (codecs.py line 100). -/
def CODEC_VERSION : String := "1.0"

/-- PhotonCodec.name (codecs.py line 99). -/
def codecName : String := "photon"

/-- The attribute mapping written by encode (codecs.py lines 198-204). -/
def encodeAttrs (dt : DType) : List (String × AttrVal) :=
  [("codec_version", .s CODEC_VERSION),
   ("codec_name", .s codecName),
   ("anscombe_gain", .f 1),
   ("anscombe_offset", .f 0),
   ("anscombe_variance", .f 0),
   ("original_dtype", .s dt.toStr)]

/-- The metadata record returned by encode for database storage
(codecs.py lines 207-214). -/
structure EncodeResult where
  path : String
  store : Option String
  codec_version : String
  shape : List Nat
  dtype : String
  transform : String
deriving DecidableEq

/-- The observable stages encode performs after validation, in order;
used to witness that a failed validation performs none of them. -/
inductive Effect where
  | buildPath
  | getBackend
  | getFsmap
  | transform
  | saveArray
  | openRW
  | setAttrs
deriving DecidableEq

/-- The except clause of encode (codecs.py lines 216-217): every failure is
re-raised as a DataJointError wrapping the original exception as cause. -/
def wrapEncode (e : PyErr) : PyErr :=
  .wrapped ("Failed to encode photon movie: " ++ e.msg) e

/-- The except clause of decode (codecs.py lines 277-278). -/
def wrapDecode (e : PyErr) : PyErr :=
  .wrapped ("Failed to decode photon movie: " ++ e.msg) e

/-- PhotonCodec.encode (codecs.py lines 132-217): validate, extract the
identity context, build the schema-addressed path, resolve the backend,
apply the Anscombe transform, write the chunked array, attach the
attributes, and return the metadata record; any failure is wrapped by
wrapEncode. The state of the object store after the call and the list of
stages performed after validation are returned alongside. The arm for a
non-array value under a successful validation is unreachable, since
validate rejects every non-array. -/
def encode (env : Env) (value : PyValue) (key : Option IdentityContext)
    (store_name : Option String) :
    Except PyErr EncodeResult × Env × List Effect :=
  match validate value with
  | .error e => (.error (wrapEncode e), env, [])
  | .ok _ =>
    match value with
    | .other t => (.error (wrapEncode (.base (typeErrMsg t))), env, [])
    | .arr a =>
      match extractContext key with
      | .error e => (.error (wrapEncode e), env, [])
      | .ok ctx =>
        let pt := buildPath ctx.schema ctx.table ctx.field ctx.primary_key ".zarr" store_name
        match getBackend env store_name with
        | .error e => (.error (wrapEncode e), env, [.buildPath])
        | .ok backend =>
          let transformed := generalized_anscombe a 1 0 0
          let chunks := computeChunks a.shape
          let art0 : ZarrArtifact := { payload := transformed, chunks := chunks, attrs := [] }
          let env1 := env.putObj backend pt.1 art0
          let art1 : ZarrArtifact := { art0 with attrs := encodeAttrs a.dtype }
          let env2 := env1.putObj backend pt.1 art1
          (.ok { path := pt.1
                 store := store_name
                 codec_version := CODEC_VERSION
                 shape := a.shape
                 dtype := transformed.dtype.toStr
                 transform := "anscombe" },
           env2,
           [.buildPath, .getBackend, .getFsmap, .transform, .saveArray, .openRW, .setAttrs])

/-- The stored metadata record handed back to decode: a dict that may or
may not carry each of the keys path, store, codec_version. -/
structure StoredRecord where
  path : Option String
  store : Option String
  codec_version : Option String
deriving DecidableEq

/-- Python str.startswith, modelled on the character lists. -/
def goStarts : List Char → List Char → Bool
  | [], _ => true
  | _ :: _, [] => false
  | a :: as, b :: bs => a == b && goStarts as bs

/-- version.startswith(p) for strings. -/
def pyStartsWith (s p : String) : Bool := goStarts p.data s.data

/-- The version resolution of decode (codecs.py lines 264-266):
z.attrs.get of codec_version, with stored.get of codec_version as the
default, itself defaulting to the baseline 1.0. A non-string attribute
value makes the subsequent startswith call fail, as it would in Python. -/
def resolveVersion (attrs : List (String × AttrVal)) (storedVersion : Option String) :
    Except PyErr String :=
  match attrsGet attrs "codec_version" with
  | some (.s v) => .ok v
  | some (.f _) => .error (.base "AttributeError: float object has no attribute startswith")
  | none => .ok (storedVersion.getD "1.0")

/-- The body of PhotonCodec.decode inside its try block (codecs.py lines
252-275): resolve the backend from the stored record, read the stored
path (a KeyError when absent), open the zarr array read-only, resolve the
format version, and gate on startswith of 1-dot. -/
def decodeBody (env : Env) (stored : StoredRecord) : Except PyErr ZarrArtifact := do
  let backend ← getBackend env stored.store
  let path ← match stored.path with
    | some p => Except.ok p
    | none => Except.error (PyErr.base "KeyError: path")
  let z ← zarrOpenRead env backend path
  let version ← resolveVersion z.attrs stored.codec_version
  if pyStartsWith version "1." then
    Except.ok z
  else
    Except.error (PyErr.base ("Unsupported photon codec version: " ++ version
      ++ ". Upgrade dj-photon-codecs or migrate data."))

/-- PhotonCodec.decode (codecs.py lines 219-278): the body wrapped by the
except clause. The key parameter is accepted and never read, exactly as in
the source (its docstring marks it unused). -/
def decode (env : Env) (stored : StoredRecord) (key : Option IdentityContext) :
    Except PyErr ZarrArtifact :=
  match decodeBody env stored with
  | .ok z => .ok z
  | .error e => .error (wrapDecode e)

/-- The major version number of a version string, read as the spec means
it: the longest leading run of characters before the first dot. Used only
to state the spec-side acceptance rule of claim C1, to be compared with
the startswith gate the code implements. -/
def majorVersionOf (v : String) : String :=
  String.mk (v.data.takeWhile (fun c => c != '.'))

/-- Whether an Except is an error. -/
def isErr {ε α : Type} (x : Except ε α) : Bool :=
  match x with
  | .error _ => true
  | .ok _ => false


/-! Helper lemmas. -/

/-- Any-is-false on a list says every element fails the predicate. -/
theorem any_false_iff (l : List Val) (p : Val → Bool) :
    l.any p = false ↔ ∀ x ∈ l, p x = false := by
  rw [List.any_eq_false]
  constructor
  · intro h x hx
    simpa using h x hx
  · intro h x hx
    simp [h x hx]

/-- Two strings with distinct initial segments stay distinct under any
appended suffixes. -/
theorem str_append_ne_append (p q t u : String) (i : Nat)
    (hi : i ≤ p.data.length) (hj : i ≤ q.data.length)
    (h : p.data.take i ≠ q.data.take i) : p ++ t ≠ q ++ u := by
  intro he
  apply h
  have hd : p.data ++ t.data = q.data ++ u.data := congrArg String.data he
  rw [← List.take_append_of_le_length hi, ← List.take_append_of_le_length hj, hd]

/-- A string with a suffix appended differs from any string with a distinct
initial segment. -/
theorem str_append_ne (p t q : String) (i : Nat) (hi : i ≤ p.data.length)
    (h : p.data.take i ≠ q.data.take i) : p ++ t ≠ q := by
  intro he
  apply h
  have hd : p.data ++ t.data = q.data := congrArg String.data he
  calc p.data.take i = (p.data ++ t.data).take i :=
        (List.take_append_of_le_length hi).symm
    _ = q.data.take i := by rw [hd]

/-! Theorems about the claims. -/

/-- C2: validate fails exactly when one of the four preconditions is
violated: not a numpy array, object dtype, fewer than 3 dimensions, or a
negative element; each failure carries its own distinct message naming the
violated precondition, and every numpy array with non-object dtype, at
least 3 dimensions and no negative element passes with None. The embedded
validate is a pure function, so passing has no side effects. -/
theorem validate_iff_preconditions (v : PyValue) :
    (validate v = .ok () ↔
      ∃ a, v = .arr a ∧ a.dtype ≠ .object ∧ 3 ≤ a.ndim ∧ ∀ x ∈ a.data, x.ltZero = false) ∧
    (∀ t, v = .other t → validate v = .error (.base (typeErrMsg t))) ∧
    (∀ a, v = .arr a → a.dtype = .object → validate v = .error (.base objectDtypeMsg)) ∧
    (∀ a, v = .arr a → a.dtype ≠ .object → a.ndim < 3 →
      validate v = .error (.base (ndimMsg a.ndim))) ∧
    (∀ a, v = .arr a → a.dtype ≠ .object → 3 ≤ a.ndim → a.data.any Val.ltZero = true →
      validate v = .error (.base negMsg)) ∧
    (∀ t n, n < 3 →
      typeErrMsg t ≠ objectDtypeMsg ∧ typeErrMsg t ≠ ndimMsg n ∧ typeErrMsg t ≠ negMsg ∧
      objectDtypeMsg ≠ ndimMsg n ∧ objectDtypeMsg ≠ negMsg ∧ ndimMsg n ≠ negMsg) := by
  refine ⟨⟨?_, ?_⟩, ?_, ?_, ?_, ?_, ?_⟩
  · intro h
    cases v with
    | other t => simp [validate] at h
    | arr a =>
      simp only [validate] at h
      split_ifs at h with h1 h2 h3
      refine ⟨a, rfl, h1, by omega, ?_⟩
      exact (any_false_iff a.data Val.ltZero).mp (by simpa using h3)
  · rintro ⟨a, rfl, h1, h2, h3⟩
    have hany : a.data.any Val.ltZero = false := (any_false_iff a.data Val.ltZero).mpr h3
    simp [validate, h1, Nat.not_lt.mpr h2, hany]
  · rintro t rfl
    rfl
  · rintro a rfl h1
    simp [validate, h1]
  · rintro a rfl h1 h2
    simp [validate, h1, h2]
  · rintro a rfl h1 h2 h3
    simp [validate, h1, Nat.not_lt.mpr h2, h3]
  · intro t n hn
    have ht1 : typeErrMsg t ≠ objectDtypeMsg :=
      str_append_ne "<photon> requires numpy.ndarray, got " t objectDtypeMsg 10
        (by decide) (by decide)
    have ht3 : typeErrMsg t ≠ negMsg :=
      str_append_ne "<photon> requires numpy.ndarray, got " t negMsg 20
        (by decide) (by decide)
    have ht2 : typeErrMsg t ≠ ndimMsg n :=
      str_append_ne_append "<photon> requires numpy.ndarray, got " 
        "<photon> requires 3D+ arrays (time, height, width, ...), got " t (toString n ++ "D") 19
        (by decide) (by decide) (by decide)
    have hn2 : objectDtypeMsg ≠ ndimMsg n :=
      Ne.symm (str_append_ne "<photon> requires 3D+ arrays (time, height, width, ...), got "
        (toString n ++ "D") objectDtypeMsg 10 (by decide) (by decide))
    have hn3 : ndimMsg n ≠ negMsg :=
      str_append_ne "<photon> requires 3D+ arrays (time, height, width, ...), got "
        (toString n ++ "D") negMsg 19 (by decide) (by decide)
    exact ⟨ht1, ht2, ht3, hn2, by decide, hn3⟩

/-- Witness for C2: a non-array input fails with the wrong-type message. -/
theorem validate_iff_preconditions_witness :
    validate (.other "int") = .error (.base (typeErrMsg "int")) :=
  (validate_iff_preconditions (.other "int")).2.1 "int" rfl

/-- C9: validate accepts arrays containing NaN: a floating-point array of
at least 3 dimensions in which no element compares less than zero passes
validation even when some element is NaN, because the non-negativity check
only asks whether any element compares less than zero, and the IEEE
comparison NaN < 0 is false. -/
theorem validate_accepts_nan (a : NDArray) (hdt : a.dtype = .float64) (hnd : 3 ≤ a.ndim)
    (hnan : Val.nan ∈ a.data) (hneg : ∀ x ∈ a.data, x.ltZero = false) :
    validate (.arr a) = .ok () ∧ Val.ltZero .nan = false := by
  refine ⟨?_, rfl⟩
  have hany : a.data.any Val.ltZero = false := (any_false_iff a.data Val.ltZero).mpr hneg
  simp [validate, hdt, Nat.not_lt.mpr hnd, hany]

/-- Witness for C9: a 3-D float64 array holding a zero and a NaN passes. -/
theorem validate_accepts_nan_witness :
    validate (.arr ⟨.float64, [1, 1, 2], [.num 0, .nan]⟩) = .ok () :=
  (validate_accepts_nan ⟨.float64, [1, 1, 2], [.num 0, .nan]⟩ rfl (by decide)
    (by decide) (by decide)).1

/-- Looking up the address just written returns the artifact written. -/
theorem lookupObj_putObj (env : Env) (bk : Option String) (p : String) (z : ZarrArtifact) :
    (env.putObj bk p z).lookupObj bk p = some z := by
  simp [Env.lookupObj, Env.putObj, List.find?]

/-- Inversion of a successful encode: the input was an array that passed
validation, the identity context was present, the backend resolved, and
the result, the final store state and the effect trace are exactly the
ones the pipeline computes. -/
theorem encode_ok_elim (env : Env) (value : PyValue) (key : Option IdentityContext)
    (sn : Option String) (res : EncodeResult) (env' : Env) (tr : List Effect)
    (h : encode env value key sn = (.ok res, env', tr)) :
    ∃ a ctx bk, value = .arr a ∧ key = some ctx ∧ validate value = .ok () ∧
      getBackend env sn = .ok bk ∧
      res = { path := (buildPath ctx.schema ctx.table ctx.field ctx.primary_key ".zarr" sn).1
              store := sn
              codec_version := CODEC_VERSION
              shape := a.shape
              dtype := "float64"
              transform := "anscombe" } ∧
      env' = (env.putObj bk res.path
          { payload := generalized_anscombe a 1 0 0
            chunks := computeChunks a.shape
            attrs := [] }).putObj bk res.path
          { payload := generalized_anscombe a 1 0 0
            chunks := computeChunks a.shape
            attrs := encodeAttrs a.dtype } ∧
      tr = [.buildPath, .getBackend, .getFsmap, .transform, .saveArray, .openRW, .setAttrs] := by
  unfold encode at h
  cases hval : validate value with
  | error e => rw [hval] at h; simp at h
  | ok u =>
    rw [hval] at h
    cases value with
    | other t => simp at h
    | arr a =>
      cases key with
      | none => simp [extractContext] at h
      | some ctx =>
        simp only [extractContext] at h
        cases hbk : getBackend env sn with
        | error e => rw [hbk] at h; simp at h
        | ok bk =>
          rw [hbk] at h
          simp only [Prod.mk.injEq, Except.ok.injEq] at h
          obtain ⟨h1, h2, h3⟩ := h
          refine ⟨a, ctx, bk, rfl, rfl, rfl, rfl, h1.symm, ?_, h3.symm⟩
          rw [← h2, ← h1]

/-- C3: the chunk shape computed during encode has length min 100 s0 along
axis 0 for leading extent s0 and full extent along every remaining axis;
the stored artifact of every successful encode carries exactly that chunk
shape for its input array, and the two concrete shapes of the spec compute
to (100, 64, 64) and (40, 64, 64). -/
theorem chunk_shape_policy (s0 : Nat) (rest : List Nat) :
    computeChunks (s0 :: rest) = min 100 s0 :: rest ∧
    computeChunks [250, 64, 64] = [100, 64, 64] ∧
    computeChunks [40, 64, 64] = [40, 64, 64] ∧
    (∀ env a key sn res env' tr,
      encode env (.arr a) key sn = (.ok res, env', tr) →
      ∃ bk z, getBackend env sn = .ok bk ∧ env'.lookupObj bk res.path = some z ∧
        z.chunks = computeChunks a.shape) := by
  refine ⟨rfl, by decide, by decide, ?_⟩
  intro env a key sn res env' tr h
  obtain ⟨a', ctx, bk, ha, hk, hval, hbk, hres, henv, htr⟩ :=
    encode_ok_elim env (.arr a) key sn res env' tr h
  cases PyValue.arr.inj ha
  refine ⟨bk,
    { payload := generalized_anscombe a 1 0 0
      chunks := computeChunks a.shape
      attrs := encodeAttrs a.dtype }, hbk, ?_, rfl⟩
  rw [henv]
  exact lookupObj_putObj _ bk res.path _

/-- Witness for C3: a concrete successful encode of a (1,1,1) array stores
chunk shape (1,1,1), the computed chunks of its shape. -/
theorem chunk_shape_policy_witness :
    ∃ bk z, getBackend (Env.mk [] []) none = .ok bk ∧
      (Env.mk [] [(none, "sch/tab/1/fld.zarr",
        ⟨⟨.float64, [1, 1, 1], [.num 54]⟩, [1, 1, 1],
          encodeAttrs (.named "uint16")⟩)]).lookupObj bk
        (EncodeResult.mk "sch/tab/1/fld.zarr" none "1.0" [1, 1, 1] "float64" "anscombe").path
        = some z ∧
      z.chunks = computeChunks (NDArray.mk (.named "uint16") [1, 1, 1] [.num 3]).shape :=
  (chunk_shape_policy 1 []).2.2.2 (Env.mk [] []) ⟨.named "uint16", [1, 1, 1], [.num 3]⟩
    (some ⟨"sch", "tab", "fld", [("id", "1")]⟩) none
    (EncodeResult.mk "sch/tab/1/fld.zarr" none "1.0" [1, 1, 1] "float64" "anscombe")
    (Env.mk [] [(none, "sch/tab/1/fld.zarr",
      ⟨⟨.float64, [1, 1, 1], [.num 54]⟩, [1, 1, 1], encodeAttrs (.named "uint16")⟩)])
    [.buildPath, .getBackend, .getFsmap, .transform, .saveArray, .openRW, .setAttrs]
    (by decide)

/-- C4: after every successful encode the stored artifact's own attributes
contain the format version, the codec identifier, the transform parameters
and the original element type, and the recorded parameters (gain 1.0,
offset 0.0, variance 0.0) are exactly those applied to the payload during
that encode. -/
theorem encode_metadata_sufficiency (env : Env) (a : NDArray) (key : Option IdentityContext)
    (sn : Option String) (res : EncodeResult) (env' : Env) (tr : List Effect)
    (h : encode env (.arr a) key sn = (.ok res, env', tr)) :
    ∃ bk z, getBackend env sn = .ok bk ∧ env'.lookupObj bk res.path = some z ∧
      attrsGet z.attrs "codec_version" = some (.s CODEC_VERSION) ∧
      attrsGet z.attrs "codec_name" = some (.s codecName) ∧
      attrsGet z.attrs "anscombe_gain" = some (.f 1) ∧
      attrsGet z.attrs "anscombe_offset" = some (.f 0) ∧
      attrsGet z.attrs "anscombe_variance" = some (.f 0) ∧
      attrsGet z.attrs "original_dtype" = some (.s a.dtype.toStr) ∧
      z.payload = generalized_anscombe a 1 0 0 := by
  obtain ⟨a', ctx, bk, ha, hk, hval, hbk, hres, henv, htr⟩ :=
    encode_ok_elim _ _ _ _ _ _ _ h
  cases PyValue.arr.inj ha
  refine ⟨bk,
    { payload := generalized_anscombe a 1 0 0
      chunks := computeChunks a.shape
      attrs := encodeAttrs a.dtype }, hbk, ?_, ?_, ?_, ?_, ?_, ?_, ?_, rfl⟩
  · rw [henv]
    exact lookupObj_putObj _ bk res.path _
  all_goals simp [attrsGet, encodeAttrs, List.find?]

/-- Witness for C4: the attributes of a concrete successful encode. -/
theorem encode_metadata_sufficiency_witness :
    ∃ bk z, getBackend (Env.mk [] []) none = .ok bk ∧
      (Env.mk [] [(none, "sch/tab/1/fld.zarr",
        ⟨⟨.float64, [1, 1, 1], [.num 54]⟩, [1, 1, 1],
          encodeAttrs (.named "uint16")⟩)]).lookupObj bk
        (EncodeResult.mk "sch/tab/1/fld.zarr" none "1.0" [1, 1, 1] "float64" "anscombe").path
        = some z ∧
      attrsGet z.attrs "codec_version" = some (.s CODEC_VERSION) ∧
      attrsGet z.attrs "codec_name" = some (.s codecName) ∧
      attrsGet z.attrs "anscombe_gain" = some (.f 1) ∧
      attrsGet z.attrs "anscombe_offset" = some (.f 0) ∧
      attrsGet z.attrs "anscombe_variance" = some (.f 0) ∧
      attrsGet z.attrs "original_dtype"
        = some (.s (DType.named "uint16").toStr) ∧
      z.payload = generalized_anscombe ⟨.named "uint16", [1, 1, 1], [.num 3]⟩ 1 0 0 :=
  encode_metadata_sufficiency (Env.mk [] []) ⟨.named "uint16", [1, 1, 1], [.num 3]⟩
    (some ⟨"sch", "tab", "fld", [("id", "1")]⟩) none
    (EncodeResult.mk "sch/tab/1/fld.zarr" none "1.0" [1, 1, 1] "float64" "anscombe")
    (Env.mk [] [(none, "sch/tab/1/fld.zarr",
      ⟨⟨.float64, [1, 1, 1], [.num 54]⟩, [1, 1, 1], encodeAttrs (.named "uint16")⟩)])
    [.buildPath, .getBackend, .getFsmap, .transform, .saveArray, .openRW, .setAttrs]
    (by decide)

/-- C5: for every valid input array the shape of the stored artifact
written by encode equals the shape of the input array, and the shape field
of the returned EncodeResult equals the input shape as well. -/
theorem encode_preserves_shape (env : Env) (a : NDArray) (key : Option IdentityContext)
    (sn : Option String) (res : EncodeResult) (env' : Env) (tr : List Effect)
    (h : encode env (.arr a) key sn = (.ok res, env', tr)) :
    res.shape = a.shape ∧
    ∃ bk z, getBackend env sn = .ok bk ∧ env'.lookupObj bk res.path = some z ∧
      z.payload.shape = a.shape := by
  obtain ⟨a', ctx, bk, ha, hk, hval, hbk, hres, henv, htr⟩ :=
    encode_ok_elim _ _ _ _ _ _ _ h
  cases PyValue.arr.inj ha
  refine ⟨by rw [hres], bk,
    { payload := generalized_anscombe a 1 0 0
      chunks := computeChunks a.shape
      attrs := encodeAttrs a.dtype }, hbk, ?_, rfl⟩
  rw [henv]
  exact lookupObj_putObj _ bk res.path _

/-- Witness for C5: a concrete successful encode preserves shape (1,1,1). -/
theorem encode_preserves_shape_witness :
    (EncodeResult.mk "sch/tab/1/fld.zarr" none "1.0" [1, 1, 1] "float64" "anscombe").shape
      = (NDArray.mk (.named "uint16") [1, 1, 1] [.num 3]).shape ∧
    ∃ bk z, getBackend (Env.mk [] []) none = .ok bk ∧
      (Env.mk [] [(none, "sch/tab/1/fld.zarr",
        ⟨⟨.float64, [1, 1, 1], [.num 54]⟩, [1, 1, 1],
          encodeAttrs (.named "uint16")⟩)]).lookupObj bk
        (EncodeResult.mk "sch/tab/1/fld.zarr" none "1.0" [1, 1, 1] "float64" "anscombe").path
        = some z ∧
      z.payload.shape = (NDArray.mk (.named "uint16") [1, 1, 1] [.num 3]).shape :=
  encode_preserves_shape (Env.mk [] []) ⟨.named "uint16", [1, 1, 1], [.num 3]⟩
    (some ⟨"sch", "tab", "fld", [("id", "1")]⟩) none
    (EncodeResult.mk "sch/tab/1/fld.zarr" none "1.0" [1, 1, 1] "float64" "anscombe")
    (Env.mk [] [(none, "sch/tab/1/fld.zarr",
      ⟨⟨.float64, [1, 1, 1], [.num 54]⟩, [1, 1, 1], encodeAttrs (.named "uint16")⟩)])
    [.buildPath, .getBackend, .getFsmap, .transform, .saveArray, .openRW, .setAttrs]
    (by decide)

/-- C7: every failure inside encode surfaces as a single encode-failure
error that wraps the original failure as its cause, and every failure
inside decode surfaces as a single decode-failure error wrapping the
original cause; nothing is silently swallowed. -/
theorem failures_wrapped (env : Env) (value : PyValue) (key k2 : Option IdentityContext)
    (sn : Option String) (stored : StoredRecord) (er er2 : PyErr) (env' : Env)
    (tr : List Effect) :
    (encode env value key sn = (.error er, env', tr) →
      ∃ e, er = .wrapped ("Failed to encode photon movie: " ++ e.msg) e ∧
        er.cause = some e) ∧
    (decode env stored k2 = .error er2 →
      ∃ e, er2 = .wrapped ("Failed to decode photon movie: " ++ e.msg) e ∧
        er2.cause = some e) := by
  constructor
  · intro h
    unfold encode at h
    cases hval : validate value with
    | error e =>
      rw [hval] at h
      simp only [Prod.mk.injEq, Except.error.injEq] at h
      exact ⟨e, h.1.symm, by rw [← h.1]; rfl⟩
    | ok u =>
      rw [hval] at h
      cases value with
      | other t =>
        simp only [Prod.mk.injEq, Except.error.injEq] at h
        exact ⟨.base (typeErrMsg t), h.1.symm, by rw [← h.1]; rfl⟩
      | arr a =>
        cases key with
        | none =>
          simp only [extractContext, Prod.mk.injEq, Except.error.injEq] at h
          exact ⟨.base "missing identity context for <photon> codec", h.1.symm, by rw [← h.1]; rfl⟩
        | some ctx =>
          simp only [extractContext] at h
          cases hbk : getBackend env sn with
          | error e =>
            rw [hbk] at h
            simp only [Prod.mk.injEq, Except.error.injEq] at h
            exact ⟨e, h.1.symm, by rw [← h.1]; rfl⟩
          | ok bk =>
            rw [hbk] at h
            simp at h
  · intro h
    unfold decode at h
    cases hb : decodeBody env stored with
    | ok z => rw [hb] at h; simp at h
    | error e =>
      rw [hb] at h
      simp only [Except.error.injEq] at h
      exact ⟨e, h.symm, by rw [← h]; rfl⟩

/-- Witness for C7: a concrete encode failure (2-D input) is the wrap of
the dimensionality validation error. -/
theorem failures_wrapped_witness :
    ∃ e, wrapEncode (.base (ndimMsg 2))
        = .wrapped ("Failed to encode photon movie: " ++ e.msg) e ∧
      (wrapEncode (.base (ndimMsg 2))).cause = some e :=
  (failures_wrapped (Env.mk [] []) (.arr ⟨.float64, [2, 2], []⟩) none none none
    (StoredRecord.mk none none none) (wrapEncode (.base (ndimMsg 2)))
    (.base "") (Env.mk [] []) []).1 (by decide)

/-- C8: when validation fails, encode surfaces that validation failure
(wrapped as the encode failure) with the object store left exactly as it
was and with none of the later stages performed: no path building, no
backend resolution, no transform and no write. -/
theorem validation_failure_no_side_effects (env : Env) (value : PyValue)
    (key : Option IdentityContext) (sn : Option String) (e : PyErr)
    (h : validate value = .error e) :
    encode env value key sn = (.error (wrapEncode e), env, []) := by
  unfold encode
  rw [h]

/-- Witness for C8: a concrete 2-D input leaves a concrete store
untouched and performs no stage. -/
theorem validation_failure_no_side_effects_witness :
    encode (Env.mk ["s3"] []) (.arr ⟨.float64, [2, 2], []⟩) none none
      = (.error (wrapEncode (.base (ndimMsg 2))), Env.mk ["s3"] [], []) :=
  validation_failure_no_side_effects (Env.mk ["s3"] []) (.arr ⟨.float64, [2, 2], []⟩)
    none none (.base (ndimMsg 2)) (by decide)

/-- Characterization of decodeBody once the backend resolves, the stored
path is present, the artifact opens, and the version resolves: the outcome
is exactly the version gate on the resolved version. -/
theorem decodeBody_eq (env : Env) (stored : StoredRecord) (bk : Option String)
    (p : String) (z : ZarrArtifact) (v : String)
    (hbk : getBackend env stored.store = .ok bk)
    (hp : stored.path = some p)
    (hz : zarrOpenRead env bk p = .ok z)
    (hv : resolveVersion z.attrs stored.codec_version = .ok v) :
    decodeBody env stored =
      if pyStartsWith v "1." then .ok z
      else .error (.base ("Unsupported photon codec version: " ++ v
        ++ ". Upgrade dj-photon-codecs or migrate data.")) := by
  unfold decodeBody
  rw [hbk, hp]
  simp only [bind, Except.bind, hz, hv]

/-- The same characterization for decode, with the decode wrap applied on
the rejecting branch. -/
theorem decode_eq (env : Env) (stored : StoredRecord) (k : Option IdentityContext)
    (bk : Option String) (p : String) (z : ZarrArtifact) (v : String)
    (hbk : getBackend env stored.store = .ok bk)
    (hp : stored.path = some p)
    (hz : zarrOpenRead env bk p = .ok z)
    (hv : resolveVersion z.attrs stored.codec_version = .ok v) :
    decode env stored k =
      if pyStartsWith v "1." then .ok z
      else .error (wrapDecode (.base ("Unsupported photon codec version: " ++ v
        ++ ". Upgrade dj-photon-codecs or migrate data."))) := by
  unfold decode
  rw [decodeBody_eq env stored bk p z v hbk hp hz hv]
  by_cases hsw : pyStartsWith v "1." = true
  · rw [if_pos hsw, if_pos hsw]
  · rw [if_neg hsw, if_neg hsw]

/-- C1 counterexample: the resolved version string 1 shares the major
version number of the baseline 1.0 (both have major version 1), yet decode
rejects the artifact, so acceptance is not decided by equality of major
version numbers as the claim states. -/
theorem decode_major_version_counterexample :
    majorVersionOf "1" = majorVersionOf "1.0" ∧
    isErr (decode (Env.mk [] [(none, "p",
        ⟨⟨.float64, [1, 1, 1], [.num 2]⟩, [1, 1, 1], [("codec_version", .s "1")]⟩)])
      (StoredRecord.mk (some "p") none none) none) = true := by
  constructor
  · rfl
  · decide

/-- C1 (amended): the decode gate accepts exactly the resolved version
strings that begin with the two characters 1-dot; for well-formed versions
of the form major.minor this coincides with sharing major version 1 with
the baseline 1.0, but a resolved version not beginning with 1-dot (for
example the bare string 1, which shares the major version number) fails
with an error naming the unsupported version. In particular an artifact
declaring 1.0 decodes to the opened handle and one declaring 2.0 fails
with an error naming 2.0. -/
theorem decode_version_gate (env : Env) (stored : StoredRecord)
    (k : Option IdentityContext) (bk : Option String) (p : String)
    (z : ZarrArtifact) (v : String)
    (hbk : getBackend env stored.store = .ok bk)
    (hp : stored.path = some p)
    (hz : zarrOpenRead env bk p = .ok z)
    (hv : resolveVersion z.attrs stored.codec_version = .ok v) :
    (pyStartsWith v "1." = true → decode env stored k = .ok z) ∧
    (pyStartsWith v "1." = false →
      decode env stored k = .error (wrapDecode (.base ("Unsupported photon codec version: "
        ++ v ++ ". Upgrade dj-photon-codecs or migrate data.")))) ∧
    decode (Env.mk [] [(none, "q",
        ⟨⟨.float64, [1, 1, 1], []⟩, [1, 1, 1], [("codec_version", .s "1.0")]⟩)])
      (StoredRecord.mk (some "q") none none) none
      = .ok ⟨⟨.float64, [1, 1, 1], []⟩, [1, 1, 1], [("codec_version", .s "1.0")]⟩ ∧
    decode (Env.mk [] [(none, "q",
        ⟨⟨.float64, [1, 1, 1], []⟩, [1, 1, 1], [("codec_version", .s "2.0")]⟩)])
      (StoredRecord.mk (some "q") none none) none
      = .error (wrapDecode (.base ("Unsupported photon codec version: "
        ++ "2.0" ++ ". Upgrade dj-photon-codecs or migrate data."))) := by
  refine ⟨?_, ?_, by decide, by decide⟩
  · intro hsw
    rw [decode_eq env stored k bk p z v hbk hp hz hv, if_pos hsw]
  · intro hsw
    rw [decode_eq env stored k bk p z v hbk hp hz hv, if_neg (by simp [hsw])]

/-- Witness for C1 (amended): the accepting branch at the concrete version
1.0 in a concrete store. -/
theorem decode_version_gate_witness :
    decode (Env.mk [] [(none, "p",
        ⟨⟨.float64, [1, 1, 1], [.num 2]⟩, [1, 1, 1], [("codec_version", .s "1.0")]⟩)])
      (StoredRecord.mk (some "p") none none) none
      = .ok ⟨⟨.float64, [1, 1, 1], [.num 2]⟩, [1, 1, 1], [("codec_version", .s "1.0")]⟩ :=
  (decode_version_gate (Env.mk [] [(none, "p",
      ⟨⟨.float64, [1, 1, 1], [.num 2]⟩, [1, 1, 1], [("codec_version", .s "1.0")]⟩)])
    (StoredRecord.mk (some "p") none none) none none "p"
    ⟨⟨.float64, [1, 1, 1], [.num 2]⟩, [1, 1, 1], [("codec_version", .s "1.0")]⟩ "1.0"
    (by decide) rfl (by decide) (by decide)).1 (by decide)

/-- C6: on every decode call the version used by the compatibility check is
resolved with this priority: the artifact attribute codec_version when
present; else the codec_version field of the stored record when present;
else the baseline default 1.0. The decode outcome is the gate applied to
the version resolved from the artifact as opened in the store state passed
to that very call, and the embedded decode is a pure function of that
state and record, so no resolution is cached across calls. -/
theorem decode_version_resolution (env : Env) (stored : StoredRecord)
    (k : Option IdentityContext) (bk : Option String) (p : String)
    (z : ZarrArtifact) (v : String) :
    (attrsGet z.attrs "codec_version" = some (.s v) →
      resolveVersion z.attrs stored.codec_version = .ok v) ∧
    (attrsGet z.attrs "codec_version" = none → stored.codec_version = some v →
      resolveVersion z.attrs stored.codec_version = .ok v) ∧
    (attrsGet z.attrs "codec_version" = none → stored.codec_version = none →
      resolveVersion z.attrs stored.codec_version = .ok "1.0") ∧
    (getBackend env stored.store = .ok bk → stored.path = some p →
      zarrOpenRead env bk p = .ok z →
      resolveVersion z.attrs stored.codec_version = .ok v →
      decode env stored k =
        if pyStartsWith v "1." then .ok z
        else .error (wrapDecode (.base ("Unsupported photon codec version: " ++ v
          ++ ". Upgrade dj-photon-codecs or migrate data.")))) := by
  refine ⟨?_, ?_, ?_, ?_⟩
  · intro h
    simp [resolveVersion, h]
  · intro h1 h2
    simp [resolveVersion, h1, h2]
  · intro h1 h2
    simp [resolveVersion, h1, h2]
  · exact decode_eq env stored k bk p z v

/-- Witness for C6: with no artifact attribute and no stored version the
resolution defaults to the baseline 1.0. -/
theorem decode_version_resolution_witness :
    resolveVersion ([] : List (String × AttrVal))
      (StoredRecord.mk (some "p") none none).codec_version = .ok "1.0" :=
  (decode_version_resolution (Env.mk [] []) (StoredRecord.mk (some "p") none none)
    none none "p" ⟨⟨.float64, [], []⟩, [], []⟩ "x").2.2.1 rfl rfl

/-- C10: decode never reads its key parameter: for any two key arguments,
including None, the decode of the same stored record against the same
store state is the same computation with the same outcome. -/
theorem decode_ignores_key (env : Env) (stored : StoredRecord)
    (k1 k2 : Option IdentityContext) :
    decode env stored k1 = decode env stored k2 := rfl
